/-
Verification of the game subsystem of the ai-companion backend.

Shallow embedding of `backend/services/game_service.py`, `backend/routers/games.py`
and `backend/models/game.py`.  Game states are Lean structures mirroring the JSON
state dictionaries built by `GameService._get_initial_state` and mutated by the
three play methods; the database of sessions is a list of session rows, and the
SQLAlchemy query helpers become list searches.  Python `int` is `Int` (scores,
guesses, ranges) or `Nat` where the quantity is a list index or counter that is
only ever initialised to 0 and incremented (`current_index`, `rounds`).
-/
import Mathlib

set_option autoImplicit false

namespace AiCompanion

/-! ### Game state types

From `GameService._get_initial_state` (game_service.py lines 76-106).
Each structure's fields are exactly the keys of the corresponding JSON dict. -/

/-- State dict of a `word_chain` session. -/
structure WordChainState where
  current_word : Option String
  words_used : List String
  user_score : Int
  companion_score : Int
  turn : String
  rounds : Nat
  deriving Repr, DecidableEq

/-- One entry of the `TRIVIA_QUESTIONS` table (game_service.py lines 39-45). -/
structure TriviaQuestion where
  question : String
  answer : String
  options : List String
  deriving Repr, DecidableEq

/-- One entry appended to the `answers` list by `play_trivia` (lines 215-220). -/
structure AnswerRecord where
  question : String
  user_answer : String
  correct_answer : String
  correct : Bool
  deriving Repr, DecidableEq

/-- State dict of a `trivia` session. -/
structure TriviaState where
  questions : List TriviaQuestion
  current_index : Nat
  user_score : Int
  companion_score : Int
  answers : List AnswerRecord
  deriving Repr, DecidableEq

/-- State dict of a `guess_number` session.  The Python dict has no
`user_score` key until a winning guess writes it; every read of that key goes
through `.get("user_score", 0)`, so the missing key is modelled as the value 0. -/
structure GuessNumberState where
  target : Int
  min_range : Int
  max_range : Int
  guesses : List Int
  max_guesses : Nat
  won : Bool
  user_score : Int
  deriving Repr, DecidableEq

/-- Initial `word_chain` state (game_service.py lines 78-86). -/
def initialWordChainState : WordChainState :=
  { current_word := none, words_used := [], user_score := 0, companion_score := 0,
    turn := "user", rounds := 0 }

/-- Initial `trivia` state (lines 87-95); the random question sample is a parameter. -/
def initialTriviaState (questions : List TriviaQuestion) : TriviaState :=
  { questions := questions, current_index := 0, user_score := 0, companion_score := 0,
    answers := [] }

/-- Initial `guess_number` state (lines 96-105); the random target is a parameter. -/
def initialGuessNumberState (target : Int) : GuessNumberState :=
  { target := target, min_range := 1, max_range := 100, guesses := [], max_guesses := 7,
    won := false, user_score := 0 }

/-! ### Pure state transitions

The bodies of `play_word_chain`, `play_trivia` and `play_guess_number` after the
session lookup: a function from old state and action to new state and outcome. -/

/-- Outcome of a word-chain move, after the session checks:
`rejected r` is `{"error": r, "valid": False}`, `accepted w` is
`{"valid": True, "word": w, "state": ...}`. -/
inductive WordChainOutcome
  | rejected (reason : String)
  | accepted (word : String)
  deriving Repr, DecidableEq

/-- Python truthiness of the `current_word` field: `None` and `""` are falsy. -/
def strTruthy : Option String → Bool
  | none => false
  | some s => !s.isEmpty

/-- Word-chain move logic, game_service.py lines 176-194.  `word[0]` is
`String.front`, `current_word[-1]` is `String.back`. -/
def wordChainStep (st : WordChainState) (word : String) : WordChainState × WordChainOutcome :=
  if word ∈ st.words_used then
    (st, .rejected "这个词已经用过了")
  else
    let cw := st.current_word.getD ""
    if strTruthy st.current_word && !(word.front == cw.back) then
      (st, .rejected ("需要以\x27" ++ toString cw.back ++ "\x27开头"))
    else
      ({ st with
          words_used := st.words_used ++ [word],
          current_word := some word,
          user_score := st.user_score + 1,
          rounds := st.rounds + 1,
          turn := "companion" },
        .accepted word)

/-- Outcome of a trivia move: `finishedAlready` is
`{"error": "No more questions", "finished": True}`; `answered` carries the
`correct`, `correct_answer` and `finished` fields of the success dict. -/
inductive TriviaOutcome
  | finishedAlready
  | answered (correct : Bool) (correct_answer : String) (finished : Bool)
  deriving Repr, DecidableEq

/-- Trivia move logic, game_service.py lines 202-233. -/
def triviaStep (st : TriviaState) (answer : String) : TriviaState × TriviaOutcome :=
  if h : st.questions.length ≤ st.current_index then
    (st, .finishedAlready)
  else
    let q := st.questions.get ⟨st.current_index, by omega⟩
    let correct : Bool := answer == q.answer
    let st1 : TriviaState := { st with
      user_score := if correct then st.user_score + 1 else st.user_score,
      answers := st.answers ++
        [{ question := q.question, user_answer := answer,
           correct_answer := q.answer, correct := correct }],
      current_index := st.current_index + 1 }
    (st1, .answered correct q.answer (decide (st1.questions.length ≤ st1.current_index)))

/-- Outcome of a guess-number move: `finishedAlready` is
`{"error": "Game already finished", "finished": True}`; `result` carries the
`guess`, `hint`, `finished`, `won` and `target` fields of the success dict
(`target` is `none` exactly when the Python dict holds `None`). -/
inductive GuessNumberOutcome
  | finishedAlready
  | result (guess : Int) (hint : String) (finished : Bool) (won : Bool) (target : Option Int)
  deriving Repr, DecidableEq

/-- Guess-number move logic, game_service.py lines 241-275. -/
def guessNumberStep (st : GuessNumberState) (guess : Int) :
    GuessNumberState × GuessNumberOutcome :=
  if st.won || decide (st.max_guesses ≤ st.guesses.length) then
    (st, .finishedAlready)
  else
    let guesses := st.guesses ++ [guess]
    let stHint : GuessNumberState × String :=
      if guess = st.target then
        ({ st with
            guesses := guesses,
            won := true,
            user_score := (st.max_guesses : Int) - guesses.length + 1 }, "correct")
      else if guess < st.target then
        ({ st with
            guesses := guesses,
            min_range := max st.min_range (guess + 1) }, "higher")
      else
        ({ st with
            guesses := guesses,
            max_range := min st.max_range (guess - 1) }, "lower")
    let st2 := stHint.1
    let finished : Bool := st2.won || decide (st2.max_guesses ≤ st2.guesses.length)
    (st2, .result guess stHint.2 finished st2.won (if finished then some st.target else none))

/-! ### Sessions, records and the database

From `backend/models/game.py`.  The `game_sessions` table is a list of rows;
SQLAlchemy's `.filter(...).first()` is `List.find?`.  Session ids are `Nat`
(the uuid strings only matter up to equality). -/

/-- The parsed `state` JSON of a session: one of the three game-state shapes. -/
inductive GameStateV
  | wc (st : WordChainState)
  | tv (st : TriviaState)
  | gn (st : GuessNumberState)
  deriving Repr, DecidableEq

/-- A row of the `game_sessions` table (models/game.py, class GameSession). -/
structure GameSessionM where
  id : Nat
  game_id : String
  companion_id : String
  stateV : GameStateV
  is_active : Bool
  deriving Repr, DecidableEq

/-- A row of the `game_records` table (models/game.py, class GameRecord);
`winner` is a nullable column. -/
structure GameRecordM where
  game_id : String
  companion_id : String
  session_id : Nat
  user_score : Int
  companion_score : Int
  rounds_played : Nat
  winner : Option String
  deriving Repr, DecidableEq

/-- The sessions table. -/
abbrev GameDB := List GameSessionM

/-- `GameService.get_session` (game_service.py lines 108-110). -/
def get_session (db : GameDB) (sid : Nat) : Option GameSessionM :=
  db.find? (fun s => s.id == sid)

/-- `GameService.get_active_session` (lines 112-122). -/
def get_active_session (db : GameDB) (cid gid : String) : Option GameSessionM :=
  db.find? (fun s => s.companion_id == cid && s.game_id == gid && s.is_active)

/-- `session.set_state(...)` + commit inside a play method: replace the state
of the session row with the given id. -/
def update_session_state (db : GameDB) (sid : Nat) (new_state : GameStateV) : GameDB :=
  db.map (fun s => if s.id == sid then { s with stateV := new_state } else s)

/-- `session.is_active = False` + commit inside `end_session`. -/
def set_inactive (db : GameDB) (sid : Nat) : GameDB :=
  db.map (fun s => if s.id == sid then { s with is_active := false } else s)

/-- `state.get("user_score", 0)` as read by `end_session` (line 143). -/
def stateUserScore : GameStateV → Int
  | .wc st => st.user_score
  | .tv st => st.user_score
  | .gn st => st.user_score

/-- `state.get("companion_score", 0)` as read by `end_session` (line 144);
a `guess_number` state dict never has this key, so it reads as 0. -/
def stateCompanionScore : GameStateV → Int
  | .wc st => st.companion_score
  | .tv st => st.companion_score
  | .gn _ => 0

/-- `state.get("rounds", state.get("current_index", 0))` (line 159): `word_chain`
has `rounds`; `trivia` lacks it and falls back to `current_index`; `guess_number`
has neither key and yields the default 0. -/
def stateRounds : GameStateV → Nat
  | .wc st => st.rounds
  | .tv st => st.current_index
  | .gn _ => 0

/-- Winner derivation in `end_session` (lines 146-151). -/
def computeWinner (user_score companion_score : Int) : String :=
  if user_score > companion_score then "user"
  else if companion_score > user_score then "companion"
  else "tie"

/-- `GameService.end_session` (lines 136-168): `none` when the session id does
not resolve; otherwise the created `GameRecord` and the updated table (the
session marked inactive).  No `is_active` precondition is checked. -/
def end_session (db : GameDB) (sid : Nat) : Option (GameRecordM × GameDB) :=
  match get_session db sid with
  | none => none
  | some s =>
    let u := stateUserScore s.stateV
    let c := stateCompanionScore s.stateV
    let record : GameRecordM :=
      { game_id := s.game_id, companion_id := s.companion_id, session_id := s.id,
        user_score := u, companion_score := c,
        rounds_played := stateRounds s.stateV,
        winner := some (computeWinner u c) }
    some (record, set_inactive db sid)

/-! ### The play methods over the database -/

/-- Result dict of `GameService.play_word_chain`: `invalidSession` is
`{"error": "Invalid session"}` (missing session or `game_id != "word_chain"`);
the other constructors carry the move outcome, `accepted` with the new state. -/
inductive WordChainPlayResult
  | invalidSession
  | rejected (reason : String)
  | accepted (word : String) (state : WordChainState)
  deriving Repr, DecidableEq

/-- `GameService.play_word_chain` (lines 170-194).  The catch-all state arm is
unreachable for tables built by these operations (a `"word_chain"` session
always holds a word-chain state). -/
def play_word_chain (db : GameDB) (sid : Nat) (word : String) :
    GameDB × WordChainPlayResult :=
  match get_session db sid with
  | none => (db, .invalidSession)
  | some s =>
    if s.game_id ≠ "word_chain" then (db, .invalidSession)
    else
      match s.stateV with
      | .wc st =>
        match wordChainStep st word with
        | (_, .rejected reason) => (db, .rejected reason)
        | (st1, .accepted w) => (update_session_state db sid (.wc st1), .accepted w st1)
      | _ => (db, .invalidSession)

/-- Result dict of `GameService.play_trivia`. -/
inductive TriviaPlayResult
  | invalidSession
  | finishedAlready
  | answered (correct : Bool) (correct_answer : String) (finished : Bool) (state : TriviaState)
  deriving Repr, DecidableEq

/-- `GameService.play_trivia` (lines 196-233). -/
def play_trivia (db : GameDB) (sid : Nat) (answer : String) :
    GameDB × TriviaPlayResult :=
  match get_session db sid with
  | none => (db, .invalidSession)
  | some s =>
    if s.game_id ≠ "trivia" then (db, .invalidSession)
    else
      match s.stateV with
      | .tv st =>
        match triviaStep st answer with
        | (_, .finishedAlready) => (db, .finishedAlready)
        | (st1, .answered c ca f) => (update_session_state db sid (.tv st1), .answered c ca f st1)
      | _ => (db, .invalidSession)

/-- Result dict of `GameService.play_guess_number`. -/
inductive GuessNumberPlayResult
  | invalidSession
  | finishedAlready
  | result (guess : Int) (hint : String) (finished : Bool) (won : Bool) (target : Option Int)
      (state : GuessNumberState)
  deriving Repr, DecidableEq

/-- `GameService.play_guess_number` (lines 235-275). -/
def play_guess_number (db : GameDB) (sid : Nat) (guess : Int) :
    GameDB × GuessNumberPlayResult :=
  match get_session db sid with
  | none => (db, .invalidSession)
  | some s =>
    if s.game_id ≠ "guess_number" then (db, .invalidSession)
    else
      match s.stateV with
      | .gn st =>
        match guessNumberStep st guess with
        | (_, .finishedAlready) => (db, .finishedAlready)
        | (st1, .result g h f w t) =>
          (update_session_state db sid (.gn st1), .result g h f w t st1)
      | _ => (db, .invalidSession)

/-! ### HTTP status mapping of the play routes (routers/games.py lines 125-163)

`play_word_chain` route: a result with `"error"` and `valid = False` is returned
as-is (HTTP 200); a result with `"error"` otherwise raises HTTPException 400.
`trivia` / `guess-number` routes: a result with `"error"` and falsy `finished`
raises 400, otherwise the result is returned as-is. -/

def wordChainHttpStatus : WordChainPlayResult → Nat
  | .invalidSession => 400
  | .rejected _ => 200
  | .accepted _ _ => 200

def triviaHttpStatus : TriviaPlayResult → Nat
  | .invalidSession => 400
  | .finishedAlready => 200
  | .answered _ _ _ _ => 200

def guessNumberHttpStatus : GuessNumberPlayResult → Nat
  | .invalidSession => 400
  | .finishedAlready => 200
  | .result _ _ _ _ _ _ => 200

/-! ### Session start (routers/games.py lines 80-89 + service lines 59-74) -/

/-- `GameService.create_session`: a fresh row is appended to the table.  The
fresh uuid and the (randomised) initial state are parameters. -/
def create_session (db : GameDB) (gid cid : String) (freshId : Nat) (init : GameStateV) :
    GameDB × GameSessionM :=
  let s : GameSessionM :=
    { id := freshId, game_id := gid, companion_id := cid, stateV := init, is_active := true }
  (db ++ [s], s)

/-- The `POST /games/sessions` route: return the existing active session for
the pair if there is one, otherwise create one. -/
def start_session (db : GameDB) (gid cid : String) (freshId : Nat) (init : GameStateV) :
    GameDB × GameSessionM :=
  match get_active_session db cid gid with
  | some s => (db, s)
  | none => create_session db gid cid freshId init

/-- Number of active sessions of one (companion, game) pair in the table. -/
def countActivePair (db : GameDB) (cid gid : String) : Nat :=
  db.countP (fun s => s.companion_id == cid && s.game_id == gid && s.is_active)

/-! ### Statistics (`GameService.get_statistics`, lines 277-320) -/

/-- One value of the `games_by_type` dict: `{"played": ..., "wins": ...}`. -/
structure GameTypeStats where
  played : Nat
  wins : Nat
  deriving Repr, DecidableEq

/-- The stats dict.  `games_by_type` is a Python dict, modelled as an
association list in key-insertion order. -/
structure Statistics where
  total_games : Nat
  total_user_score : Int
  total_companion_score : Int
  wins : Nat
  losses : Nat
  ties : Nat
  games_by_type : List (String × GameTypeStats)
  deriving Repr, DecidableEq

/-- Dict lookup on `games_by_type`. -/
def lookupGameType : List (String × GameTypeStats) → String → Option GameTypeStats
  | [], _ => none
  | (k, v) :: rest, gid => if k = gid then some v else lookupGameType rest gid

/-- The `games_by_type` update of one loop iteration (lines 313-318): insert
`{"played": 0, "wins": 0}` for an unseen key, then `played += 1` and, when the
record's winner is `"user"`, `wins += 1`. -/
def bumpGameType : List (String × GameTypeStats) → String → Bool → List (String × GameTypeStats)
  | [], gid, isWin => [(gid, { played := 1, wins := if isWin then 1 else 0 })]
  | (k, v) :: rest, gid, isWin =>
    if k = gid then
      (k, { played := v.played + 1, wins := v.wins + (if isWin then 1 else 0) }) :: rest
    else
      (k, v) :: bumpGameType rest gid isWin

/-- One iteration of the `for r in records` loop (lines 302-318): score totals,
the `if/elif/else` on `winner`, and the `games_by_type` update. -/
def statStep (acc : Statistics) (r : GameRecordM) : Statistics :=
  let acc1 := { acc with
    total_user_score := acc.total_user_score + r.user_score,
    total_companion_score := acc.total_companion_score + r.companion_score }
  let acc2 :=
    if r.winner = some "user" then { acc1 with wins := acc1.wins + 1 }
    else if r.winner = some "companion" then { acc1 with losses := acc1.losses + 1 }
    else { acc1 with ties := acc1.ties + 1 }
  { acc2 with
    games_by_type := bumpGameType acc2.games_by_type r.game_id (decide (r.winner = some "user")) }

/-- Specification helper: the effect of one `bumpGameType` on the value found
under a key. -/
def bumpLookup (o : Option GameTypeStats) (w : Bool) : GameTypeStats :=
  match o with
  | none => { played := 1, wins := if w then 1 else 0 }
  | some v => { played := v.played + 1, wins := v.wins + (if w then 1 else 0) }

/-- Specification helper: the effect of a batch of `p` plays (`w` of them won
by the user) on the value found under a key. -/
def addCounts (o : Option GameTypeStats) (p w : Nat) : Option GameTypeStats :=
  match o with
  | none => if p = 0 then none else some { played := p, wins := w }
  | some v => some { played := v.played + p, wins := v.wins + w }

/-- The all-zero/empty stats dict returned for zero records (lines 281-290). -/
def emptyStatistics : Statistics :=
  { total_games := 0, total_user_score := 0, total_companion_score := 0,
    wins := 0, losses := 0, ties := 0, games_by_type := [] }

/-- `GameService.get_statistics` on the owner's record list.  The explicit
zero-record early return of the code coincides with folding over `[]`;
`total_games` is set to `len(records)` up front (line 293). -/
def get_statistics (records : List GameRecordM) : Statistics :=
  records.foldl statStep { emptyStatistics with total_games := records.length }

/-! ### Concrete inputs used to instantiate the theorems -/

/-- A guess-number state after two wrong guesses against target 42. -/
def gnTwoGuesses : GuessNumberState :=
  { initialGuessNumberState 42 with guesses := [10, 80] }

/-- A guess-number state that has used all seven guesses without winning. -/
def gnExhausted : GuessNumberState :=
  { initialGuessNumberState 42 with guesses := [1, 2, 3, 4, 5, 6, 7] }

/-- A word-chain state after the word `"猫头鹰"` was accepted. -/
def wcOwl : WordChainState :=
  { initialWordChainState with current_word := some "猫头鹰", words_used := ["猫头鹰"] }

/-- A one-question trivia state (the spec's `"长江"` example). -/
def tvRiver : TriviaState :=
  initialTriviaState
    [{ question := "中国最长的河流是什么？", answer := "长江",
       options := ["黄河", "长江", "珠江", "淮河"] }]

/-- The river trivia state with its single question already consumed. -/
def tvRiverDone : TriviaState :=
  { tvRiver with current_index := 1 }

/-- An active word-chain session in its initial state. -/
def sesFreshWordChain : GameSessionM :=
  { id := 0, game_id := "word_chain", companion_id := "c",
    stateV := .wc initialWordChainState, is_active := true }

/-- A table holding only `sesFreshWordChain`. -/
def dbOneWordChain : GameDB := [sesFreshWordChain]

/-- The same table after `end_session` marked the session inactive. -/
def dbOneWordChainEnded : GameDB := set_inactive dbOneWordChain 0

/-- The record `end_session` creates for the fresh word-chain session
(0–0 scores, hence a tie, 0 rounds). -/
def recFreshWordChain : GameRecordM :=
  { game_id := "word_chain", companion_id := "c", session_id := 0,
    user_score := 0, companion_score := 0, rounds_played := 0, winner := some "tie" }

/-- The word-chain state after `"你好"` is accepted from the initial state. -/
def wcAfterHello : WordChainState :=
  { initialWordChainState with
    words_used := ["你好"], current_word := some "你好",
    user_score := 1, rounds := 1, turn := "companion" }

/-- An active trivia session (used as the wrong-game-type target of a
word-chain play). -/
def sesOneTrivia : GameSessionM :=
  { id := 0, game_id := "trivia", companion_id := "c",
    stateV := .tv tvRiver, is_active := true }

/-- A table holding only `sesOneTrivia`. -/
def dbOneTrivia : GameDB := [sesOneTrivia]

/-- The trivia table after `end_session` marked its session inactive. -/
def dbOneTriviaEnded : GameDB := set_inactive dbOneTrivia 0

/-- The record `end_session` creates for `sesOneTrivia` (0–0 scores, tie,
`rounds_played` from `current_index` = 0). -/
def recOneTrivia : GameRecordM :=
  { game_id := "trivia", companion_id := "c", session_id := 0,
    user_score := 0, companion_score := 0, rounds_played := 0, winner := some "tie" }

/-- The river trivia state after the correct answer `"长江"` is submitted. -/
def tvRiverAnswered : TriviaState :=
  { tvRiver with
    user_score := 1,
    answers := [{ question := "中国最长的河流是什么？", user_answer := "长江",
                  correct_answer := "长江", correct := true }],
    current_index := 1 }

/-- An active guess-number session holding `gnTwoGuesses`. -/
def sesOneGuess : GameSessionM :=
  { id := 0, game_id := "guess_number", companion_id := "c",
    stateV := .gn gnTwoGuesses, is_active := true }

/-- A table holding only `sesOneGuess`. -/
def dbOneGuess : GameDB := [sesOneGuess]

/-- The guess-number table after `end_session` marked its session inactive. -/
def dbOneGuessEnded : GameDB := set_inactive dbOneGuess 0

/-- The record `end_session` creates for `sesOneGuess` (the guess-number state
dict has no score or rounds keys, so 0–0, tie, 0 rounds). -/
def recOneGuess : GameRecordM :=
  { game_id := "guess_number", companion_id := "c", session_id := 0,
    user_score := 0, companion_score := 0, rounds_played := 0, winner := some "tie" }

/-- `gnTwoGuesses` after the winning third guess 42. -/
def gnWon : GuessNumberState :=
  { gnTwoGuesses with guesses := [10, 80, 42], won := true, user_score := 5 }

/-- A word-chain state with user 5 – companion 2 after 4 rounds. -/
def wcScored : WordChainState :=
  { initialWordChainState with user_score := 5, companion_score := 2, rounds := 4 }

/-- An active session holding `wcScored`, exercising `end_session`'s winner
comparison and rounds derivation. -/
def sesScored : GameSessionM :=
  { id := 3, game_id := "word_chain", companion_id := "c",
    stateV := .wc wcScored, is_active := true }

/-- A table holding only `sesScored`. -/
def dbScored : GameDB := [sesScored]

/-- Three records with winners user, user, tie (the spec's statistics example). -/
def recsUserUserTie : List GameRecordM :=
  [ { game_id := "trivia", companion_id := "c", session_id := 0, user_score := 3,
      companion_score := 1, rounds_played := 5, winner := some "user" },
    { game_id := "word_chain", companion_id := "c", session_id := 1, user_score := 2,
      companion_score := 0, rounds_played := 2, winner := some "user" },
    { game_id := "trivia", companion_id := "c", session_id := 2, user_score := 2,
      companion_score := 2, rounds_played := 5, winner := some "tie" } ]

end AiCompanion

namespace AiCompanion

/-! ## Theorems -/

/-- **C3**: on an unfinished guess-number state, a guess equal to the target
sets `won := true` and scores `max_guesses - length(guesses) + 1` counting the
current guess; a low guess raises `min_range` to `max(min_range, guess+1)` with
hint `"higher"`; a high guess lowers `max_range` to `min(max_range, guess-1)`
with hint `"lower"`; the outcome reveals the target exactly when the game is
finished and is `none` otherwise. -/
theorem guessNumberStep_unfinished_spec (st : GuessNumberState) (guess : Int)
    (h : ¬ (st.won = true ∨ st.max_guesses ≤ st.guesses.length)) :
    (guess = st.target →
      guessNumberStep st guess =
        ({ st with
            guesses := st.guesses ++ [guess],
            won := true,
            user_score := (st.max_guesses : Int) - (st.guesses.length + 1) + 1 },
          .result guess "correct" true true (some st.target)))
    ∧ (guess < st.target →
      guessNumberStep st guess =
        ({ st with
            guesses := st.guesses ++ [guess],
            min_range := max st.min_range (guess + 1) },
          .result guess "higher" (decide (st.max_guesses ≤ st.guesses.length + 1)) false
            (if st.max_guesses ≤ st.guesses.length + 1 then some st.target else none)))
    ∧ (st.target < guess →
      guessNumberStep st guess =
        ({ st with
            guesses := st.guesses ++ [guess],
            max_range := min st.max_range (guess - 1) },
          .result guess "lower" (decide (st.max_guesses ≤ st.guesses.length + 1)) false
            (if st.max_guesses ≤ st.guesses.length + 1 then some st.target else none))) := by
  obtain ⟨hw, hl⟩ := not_or.mp h
  rw [Bool.not_eq_true] at hw
  refine ⟨fun hc => ?_, fun hc => ?_, fun hc => ?_⟩
  · simp [guessNumberStep, hw, hl, hc]
  · have h1 : ¬ guess = st.target := by omega
    simp [guessNumberStep, hw, hl, h1, hc]
  · have h1 : ¬ guess = st.target := by omega
    have h2 : ¬ guess < st.target := by omega
    simp [guessNumberStep, hw, hl, h1, h2]

/-- Witness for C3: the spec's own numbers — `max_guesses = 7`, target 42,
a correct third guess wins with score `7 - 3 + 1 = 5`. -/
theorem guessNumberStep_unfinished_spec_witness :
    guessNumberStep gnTwoGuesses 42 =
      ({ gnTwoGuesses with
          guesses := gnTwoGuesses.guesses ++ [42],
          won := true,
          user_score := (gnTwoGuesses.max_guesses : Int) - (gnTwoGuesses.guesses.length + 1) + 1 },
        .result 42 "correct" true true (some gnTwoGuesses.target)) :=
  (guessNumberStep_unfinished_spec gnTwoGuesses 42 (by decide)).1 rfl

/-- **C9**: a finished game accepts no further move and the state is
unmodified: trivia with `current_index ≥ length(questions)`, and guess-number
with `won` or `length(guesses) ≥ max_guesses`, both return the
finished-already outcome and leave the state exactly as it was. -/
theorem finished_game_rejects_moves :
    (∀ (st : TriviaState) (answer : String), st.questions.length ≤ st.current_index →
      triviaStep st answer = (st, .finishedAlready))
    ∧ (∀ (st : GuessNumberState) (guess : Int),
        st.won = true ∨ st.max_guesses ≤ st.guesses.length →
      guessNumberStep st guess = (st, .finishedAlready)) := by
  constructor
  · intro st answer h
    simp [triviaStep, h]
  · intro st guess h
    rcases h with h | h
    · simp [guessNumberStep, h]
    · simp [guessNumberStep, h]

/-- Witness for C9: a trivia session past its last question and a guess-number
session out of guesses both reject a further move without mutation. -/
theorem finished_game_rejects_moves_witness :
    triviaStep tvRiverDone "长江" = (tvRiverDone, .finishedAlready)
    ∧ guessNumberStep gnExhausted 42 = (gnExhausted, .finishedAlready) :=
  ⟨finished_game_rejects_moves.1 tvRiverDone "长江" (by decide),
   finished_game_rejects_moves.2 gnExhausted 42 (Or.inr (by decide))⟩

/-- **C4**: for a non-empty word, a word-chain move is rejected with the
already-used reason and unchanged state when the word was used before;
rejected with the must-start-with reason and unchanged state when
`current_word` is set and the word's first character differs from
`current_word`'s last character; and otherwise accepted, appending the word,
making it the current word, incrementing `user_score` and `rounds` and handing
the turn to the companion.  (`current_word`, when set, is a previously accepted
word, hence non-empty.) -/
theorem wordChainStep_spec (st : WordChainState) (word : String)
    (_hword : word ≠ "") (hcw : st.current_word ≠ some "") :
    (word ∈ st.words_used →
      wordChainStep st word = (st, .rejected "这个词已经用过了"))
    ∧ (∀ cw, word ∉ st.words_used → st.current_word = some cw → word.front ≠ cw.back →
      wordChainStep st word =
        (st, .rejected ("需要以\x27" ++ toString cw.back ++ "\x27开头")))
    ∧ (word ∉ st.words_used →
      (∀ cw, st.current_word = some cw → word.front = cw.back) →
      wordChainStep st word =
        ({ st with
            words_used := st.words_used ++ [word],
            current_word := some word,
            user_score := st.user_score + 1,
            rounds := st.rounds + 1,
            turn := "companion" },
          .accepted word)) := by
  refine ⟨fun hm => ?_, fun cw hm hcweq hne => ?_, fun hm hmatch => ?_⟩
  · simp [wordChainStep, hm]
  · have hne' : cw ≠ "" := by
      intro hcontra
      exact hcw (hcontra ▸ hcweq)
    have hempty : cw.isEmpty = false := by
      rw [Bool.eq_false_iff]
      intro hcontra
      exact hne' ((String.isEmpty_iff cw).mp hcontra)
    simp [wordChainStep, hm, hcweq, strTruthy, hempty, hne]
  · cases hcwo : st.current_word with
    | none => simp [wordChainStep, hm, hcwo, strTruthy]
    | some cw =>
      have hfb := hmatch cw hcwo
      simp [wordChainStep, hm, hcwo, strTruthy, hfb]

/-- Witness for C4: the spec's chaining example — with current word `"猫头鹰"`,
the word `"鹰击长空"` is accepted (it starts with `'鹰'`). -/
theorem wordChainStep_spec_witness :
    wordChainStep wcOwl "鹰击长空" =
      ({ wcOwl with
          words_used := wcOwl.words_used ++ ["鹰击长空"],
          current_word := some "鹰击长空",
          user_score := wcOwl.user_score + 1,
          rounds := wcOwl.rounds + 1,
          turn := "companion" },
        .accepted "鹰击长空") :=
  (wordChainStep_spec wcOwl "鹰击长空" (by decide) (by decide)).2.2 (by decide)
    (fun cw hcw => by cases hcw; decide)

/-- **C5**: on an unfinished trivia state, an answer is compared for exact
string equality with the current question's stored answer; `user_score`
increases by exactly 1 on a match and is unchanged otherwise; a record of the
question, the given answer, the correct answer and the correctness flag is
appended to `answers`; `current_index` advances by 1; the outcome reports the
correctness, the correct answer text, and `finished = (new current_index ≥
number of questions)`. -/
theorem triviaStep_spec (st : TriviaState) (answer : String)
    (h : st.current_index < st.questions.length) :
    let q := st.questions.get ⟨st.current_index, h⟩
    ((triviaStep st answer).1.user_score =
        if answer = q.answer then st.user_score + 1 else st.user_score)
    ∧ (triviaStep st answer).1.answers = st.answers ++
        [{ question := q.question, user_answer := answer,
           correct_answer := q.answer, correct := answer == q.answer }]
    ∧ (triviaStep st answer).1.current_index = st.current_index + 1
    ∧ (triviaStep st answer).1.questions = st.questions
    ∧ (triviaStep st answer).1.companion_score = st.companion_score
    ∧ (triviaStep st answer).2 =
        .answered (answer == q.answer) q.answer
          (decide (st.questions.length ≤ st.current_index + 1)) := by
  have h' : ¬ st.questions.length ≤ st.current_index := not_le.mpr h
  simp [triviaStep, h']

/-- Witness for C5: the spec's `"长江"` example — submitting the stored answer
is correct and scores exactly 1; the one-question game is then finished. -/
theorem triviaStep_spec_witness :
    (triviaStep tvRiver "长江").1.user_score = tvRiver.user_score + 1
    ∧ (triviaStep tvRiver "长江").2 = .answered true "长江" true := by
  obtain ⟨h1, _, _, _, _, h6⟩ := triviaStep_spec tvRiver "长江" (by decide)
  exact ⟨h1.trans (by decide), h6.trans (by decide)⟩

/-- Marking a session inactive only flips `is_active` on the row fetched by
its id. -/
theorem get_session_set_inactive (db : GameDB) (sid : Nat) :
    get_session (set_inactive db sid) sid =
      (get_session db sid).map (fun s => { s with is_active := false }) := by
  induction db with
  | nil => rfl
  | cons a l ih =>
    by_cases h : a.id = sid
    · simp [get_session, set_inactive, List.find?_cons, h]
    · have hb : (a.id == sid) = false := by simp [h]
      simp only [get_session, set_inactive, List.map_cons, List.find?_cons, hb, if_neg,
        Bool.false_eq_true, ite_false]
      simpa [get_session, set_inactive] using ih

/-- **C6**: `end_session` on an existing session succeeds and creates a record
whose winner is `"user"`, `"companion"` or `"tie"` by score comparison, whose
`rounds_played` comes from the state's `rounds` field (word chain), else from
`current_index` (trivia), else is 0 (guess number), and which carries the
state's scores and references the originating session. -/
theorem end_session_spec (db : GameDB) (sid : Nat) (s : GameSessionM)
    (hs : get_session db sid = some s) :
    ∃ rec db2, end_session db sid = some (rec, db2)
      ∧ rec.session_id = s.id
      ∧ rec.game_id = s.game_id
      ∧ rec.companion_id = s.companion_id
      ∧ rec.user_score = stateUserScore s.stateV
      ∧ rec.companion_score = stateCompanionScore s.stateV
      ∧ (stateUserScore s.stateV > stateCompanionScore s.stateV →
          rec.winner = some "user")
      ∧ (stateCompanionScore s.stateV > stateUserScore s.stateV →
          rec.winner = some "companion")
      ∧ (stateUserScore s.stateV = stateCompanionScore s.stateV →
          rec.winner = some "tie")
      ∧ (∀ w, s.stateV = .wc w → rec.rounds_played = w.rounds)
      ∧ (∀ t, s.stateV = .tv t → rec.rounds_played = t.current_index)
      ∧ (∀ g, s.stateV = .gn g → rec.rounds_played = 0) := by
  unfold end_session
  rw [hs]
  refine ⟨_, _, rfl, rfl, rfl, rfl, rfl, rfl, ?_, ?_, ?_, ?_, ?_, ?_⟩
  · intro hgt
    simp [computeWinner, hgt]
  · intro hgt
    have hn : ¬ stateUserScore s.stateV > stateCompanionScore s.stateV := by omega
    simp [computeWinner, hn, hgt]
  · intro heq
    simp [computeWinner, heq]
  · intro w hw
    simp [stateRounds, hw]
  · intro t ht
    simp [stateRounds, ht]
  · intro g hg
    simp [stateRounds, hg]

/-- Witness for C6: the spec's example scores — user 5 vs companion 2 gives
winner `"user"`, with `rounds_played` taken from the state's 4 rounds. -/
theorem end_session_spec_witness :
    ∃ rec db2, end_session dbScored 3 = some (rec, db2)
      ∧ rec.winner = some "user" ∧ rec.rounds_played = 4 ∧ rec.session_id = 3 := by
  obtain ⟨rec, db2, h1, h2, _, _, _, _, h7, _, _, h10, _, _⟩ :=
    end_session_spec dbScored 3 sesScored (by decide)
  exact ⟨rec, db2, h1, h7 (by decide), (h10 wcScored rfl).trans (by decide), h2.trans (by decide)⟩

/-- Counterexample to **C1**: ending the only (word-chain) session does set
`is_active = false`, but a following `play` against the ended session is not
an invalid-session or finished-already outcome — the move `"你好"` is silently
accepted, because none of the play methods consults `is_active`. -/
theorem ended_session_play_counterexample :
    end_session dbOneWordChain 0 = some (recFreshWordChain, dbOneWordChainEnded)
    ∧ (get_session dbOneWordChainEnded 0).map GameSessionM.is_active = some false
    ∧ (play_word_chain dbOneWordChainEnded 0 "你好").2 =
        WordChainPlayResult.accepted "你好" wcAfterHello
    ∧ (play_word_chain dbOneWordChainEnded 0 "你好").2 ≠
        WordChainPlayResult.invalidSession := by
  decide

/-- **C1 (amended)**: after `end_session(id)` succeeds, re-fetching the session
shows `is_active = false`; but the play methods of all three game types check
only the session's existence, its `game_id` and the game state's own rules —
never `is_active` — so a move that the game rules accept is accepted unchanged
on the ended session, for any game type. -/
theorem end_session_deactivates_but_play_unguarded
    (db : GameDB) (sid : Nat) (s : GameSessionM) (rec : GameRecordM) (db2 : GameDB)
    (hs : get_session db sid = some s)
    (hend : end_session db sid = some (rec, db2)) :
    ((get_session db2 sid).map GameSessionM.is_active = some false)
    ∧ (∀ word st st1,
        s.game_id = "word_chain" → s.stateV = .wc st →
        wordChainStep st word = (st1, .accepted word) →
        (play_word_chain db2 sid word).2 = .accepted word st1)
    ∧ (∀ answer st st1 c ca f,
        s.game_id = "trivia" → s.stateV = .tv st →
        triviaStep st answer = (st1, .answered c ca f) →
        (play_trivia db2 sid answer).2 = .answered c ca f st1)
    ∧ (∀ guess st st1 g hb f w t,
        s.game_id = "guess_number" → s.stateV = .gn st →
        guessNumberStep st guess = (st1, .result g hb f w t) →
        (play_guess_number db2 sid guess).2 = .result g hb f w t st1) := by
  unfold end_session at hend
  rw [hs] at hend
  have hdb2 : db2 = set_inactive db sid := by
    cases hend
    rfl
  subst hdb2
  have hs2 : get_session (set_inactive db sid) sid = some { s with is_active := false } := by
    rw [get_session_set_inactive, hs]
    rfl
  refine ⟨?_, ?_, ?_, ?_⟩
  · rw [hs2]
    rfl
  · intro word st st1 hgid hstv hstep
    simp [play_word_chain, hs2, hgid, hstv, hstep]
  · intro answer st st1 c ca f hgid hstv hstep
    simp [play_trivia, hs2, hgid, hstv, hstep]
  · intro guess st st1 g hb f w t hgid hstv hstep
    simp [play_guess_number, hs2, hgid, hstv, hstep]

/-- Witness for C1 (amended): one ended session of each game type — the ended
word-chain session accepts `"你好"`, the ended trivia session accepts the
answer `"长江"`, and the ended guess-number session accepts the winning
guess 42. -/
theorem end_session_deactivates_but_play_unguarded_witness :
    ((get_session dbOneWordChainEnded 0).map GameSessionM.is_active = some false
      ∧ (play_word_chain dbOneWordChainEnded 0 "你好").2 =
          WordChainPlayResult.accepted "你好" wcAfterHello)
    ∧ ((get_session dbOneTriviaEnded 0).map GameSessionM.is_active = some false
      ∧ (play_trivia dbOneTriviaEnded 0 "长江").2 =
          TriviaPlayResult.answered true "长江" true tvRiverAnswered)
    ∧ ((get_session dbOneGuessEnded 0).map GameSessionM.is_active = some false
      ∧ (play_guess_number dbOneGuessEnded 0 42).2 =
          GuessNumberPlayResult.result 42 "correct" true true (some 42) gnWon) := by
  have h1 := end_session_deactivates_but_play_unguarded dbOneWordChain 0
    sesFreshWordChain recFreshWordChain dbOneWordChainEnded (by decide) (by decide)
  have h2 := end_session_deactivates_but_play_unguarded dbOneTrivia 0
    sesOneTrivia recOneTrivia dbOneTriviaEnded (by decide) (by decide)
  have h3 := end_session_deactivates_but_play_unguarded dbOneGuess 0
    sesOneGuess recOneGuess dbOneGuessEnded (by decide) (by decide)
  exact ⟨⟨h1.1, h1.2.1 "你好" initialWordChainState wcAfterHello rfl rfl (by decide)⟩,
    ⟨h2.1, h2.2.2.1 "长江" tvRiver tvRiverAnswered true "长江" true rfl rfl (by decide)⟩,
    ⟨h3.1, h3.2.2.2 42 gnTwoGuesses gnWon 42 "correct" true true (some 42) rfl rfl (by decide)⟩⟩

/-- Counterexample to **C2**: a play against a missing session (the claim's
NotFound case) and a play against an existing session of the wrong game type
produce the *same* `{"error": "Invalid session"}` result, and the router maps
it to HTTP 400 — not 404 — so the two failure modes are indistinguishable. -/
theorem notfound_wrongtype_indistinguishable_counterexample :
    (play_word_chain ([] : GameDB) 0 "你好").2 = WordChainPlayResult.invalidSession
    ∧ (play_word_chain dbOneTrivia 0 "你好").2 = WordChainPlayResult.invalidSession
    ∧ (play_word_chain ([] : GameDB) 0 "你好").2 = (play_word_chain dbOneTrivia 0 "你好").2
    ∧ wordChainHttpStatus (play_word_chain ([] : GameDB) 0 "你好").2 = 400 := by
  decide

/-- **C2 (amended)**: every play method returns the same generic
invalid-session error both when the session id does not resolve and when the
session exists with a different `game_id`, and each play route maps that error
to HTTP 400; the two failure modes are not distinguishable by the caller. -/
theorem play_invalid_session_uniform (db : GameDB) (sid : Nat)
    (word answer : String) (guess : Int) :
    (get_session db sid = none →
      play_word_chain db sid word = (db, .invalidSession)
      ∧ play_trivia db sid answer = (db, .invalidSession)
      ∧ play_guess_number db sid guess = (db, .invalidSession))
    ∧ (∀ s, get_session db sid = some s →
        (s.game_id ≠ "word_chain" → play_word_chain db sid word = (db, .invalidSession))
        ∧ (s.game_id ≠ "trivia" → play_trivia db sid answer = (db, .invalidSession))
        ∧ (s.game_id ≠ "guess_number" → play_guess_number db sid guess = (db, .invalidSession)))
    ∧ wordChainHttpStatus .invalidSession = 400
    ∧ triviaHttpStatus .invalidSession = 400
    ∧ guessNumberHttpStatus .invalidSession = 400 := by
  refine ⟨fun hn => ⟨?_, ?_, ?_⟩,
    fun s hssome => ⟨fun hne => ?_, fun hne => ?_, fun hne => ?_⟩, rfl, rfl, rfl⟩
  · simp [play_word_chain, hn]
  · simp [play_trivia, hn]
  · simp [play_guess_number, hn]
  · simp [play_word_chain, hssome, hne]
  · simp [play_trivia, hssome, hne]
  · simp [play_guess_number, hssome, hne]

/-- Witness for C2 (amended): the empty table (missing session) and a trivia
session hit by a word-chain play both yield the invalid-session error, mapped
to HTTP 400. -/
theorem play_invalid_session_uniform_witness :
    play_word_chain ([] : GameDB) 0 "你好" = ([], .invalidSession)
    ∧ play_word_chain dbOneTrivia 0 "你好" = (dbOneTrivia, .invalidSession)
    ∧ wordChainHttpStatus .invalidSession = 400 := by
  have h1 := (play_invalid_session_uniform ([] : GameDB) 0 "你好" "x" 1).1 rfl
  have h2 := (play_invalid_session_uniform dbOneTrivia 0 "你好" "x" 1).2.1
    sesOneTrivia (by decide)
  exact ⟨h1.1, h2.1 (by decide), rfl⟩

/-- **C7**: starting a session is idempotent while one is active: a second
`start_session` for the same (owner, game) pair returns the very session the
first call returned and leaves the table unchanged, and the table keeps at
most one active session for the pair. -/
theorem start_session_idempotent (db : GameDB) (gid cid : String)
    (f1 f2 : Nat) (i1 i2 : GameStateV)
    (hinv : countActivePair db cid gid ≤ 1) :
    ((start_session (start_session db gid cid f1 i1).1 gid cid f2 i2).2
      = (start_session db gid cid f1 i1).2)
    ∧ ((start_session (start_session db gid cid f1 i1).1 gid cid f2 i2).1
      = (start_session db gid cid f1 i1).1)
    ∧ countActivePair (start_session db gid cid f1 i1).1 cid gid ≤ 1 := by
  cases hfind : get_active_session db cid gid with
  | some s =>
    simp only [start_session, hfind]
    exact ⟨trivial, trivial, hinv⟩
  | none =>
    have hcount0 : countActivePair db cid gid = 0 :=
      List.countP_eq_zero.mpr (List.find?_eq_none.mp hfind)
    have h2 : get_active_session
        (db ++ [{ id := f1, game_id := gid, companion_id := cid, stateV := i1,
                  is_active := true }]) cid gid =
        some { id := f1, game_id := gid, companion_id := cid, stateV := i1,
               is_active := true } := by
      unfold get_active_session at hfind ⊢
      rw [List.find?_append, hfind]
      simp
    simp only [start_session, hfind, create_session, h2]
    refine ⟨trivial, trivial, ?_⟩
    unfold countActivePair at hcount0 ⊢
    rw [List.countP_append, hcount0]
    simp

/-- Witness for C7: two consecutive starts on an empty table return the same
session, and one active session exists for the pair afterwards. -/
theorem start_session_idempotent_witness :
    ((start_session (start_session [] "word_chain" "c" 0 (.wc initialWordChainState)).1
        "word_chain" "c" 1 (.wc initialWordChainState)).2
      = (start_session [] "word_chain" "c" 0 (.wc initialWordChainState)).2)
    ∧ countActivePair (start_session [] "word_chain" "c" 0
        (.wc initialWordChainState)).1 "c" "word_chain" ≤ 1 := by
  have h := start_session_idempotent [] "word_chain" "c" 0 1
    (.wc initialWordChainState) (.wc initialWordChainState) (by decide)
  exact ⟨h.1, h.2.2⟩

/-! ### Statistics lemmas -/

theorem statStep_total_games (acc : Statistics) (r : GameRecordM) :
    (statStep acc r).total_games = acc.total_games := by
  simp only [statStep]
  split_ifs <;> rfl

theorem statStep_total_user_score (acc : Statistics) (r : GameRecordM) :
    (statStep acc r).total_user_score = acc.total_user_score + r.user_score := by
  simp only [statStep]
  split_ifs <;> rfl

theorem statStep_total_companion_score (acc : Statistics) (r : GameRecordM) :
    (statStep acc r).total_companion_score = acc.total_companion_score + r.companion_score := by
  simp only [statStep]
  split_ifs <;> rfl

theorem statStep_wins (acc : Statistics) (r : GameRecordM) :
    (statStep acc r).wins = acc.wins + (if r.winner = some "user" then 1 else 0) := by
  simp only [statStep]
  split_ifs <;> simp

theorem statStep_losses (acc : Statistics) (r : GameRecordM) :
    (statStep acc r).losses = acc.losses +
      (if r.winner = some "user" then 0
       else if r.winner = some "companion" then 1 else 0) := by
  simp only [statStep]
  split_ifs <;> simp

theorem statStep_ties (acc : Statistics) (r : GameRecordM) :
    (statStep acc r).ties = acc.ties +
      (if r.winner = some "user" then 0
       else if r.winner = some "companion" then 0 else 1) := by
  simp only [statStep]
  split_ifs <;> simp

theorem statStep_games_by_type (acc : Statistics) (r : GameRecordM) :
    (statStep acc r).games_by_type =
      bumpGameType acc.games_by_type r.game_id (decide (r.winner = some "user")) := by
  simp only [statStep]
  split_ifs <;> rfl

theorem foldl_statStep_total_games (rs : List GameRecordM) :
    ∀ acc, (List.foldl statStep acc rs).total_games = acc.total_games := by
  induction rs with
  | nil => intro acc; rfl
  | cons r rest ih =>
    intro acc
    rw [List.foldl_cons, ih, statStep_total_games]

theorem foldl_statStep_total_user_score (rs : List GameRecordM) :
    ∀ acc, (List.foldl statStep acc rs).total_user_score =
      acc.total_user_score + (rs.map (fun r => r.user_score)).sum := by
  induction rs with
  | nil => intro acc; simp
  | cons r rest ih =>
    intro acc
    rw [List.foldl_cons, ih, statStep_total_user_score]
    simp only [List.map_cons, List.sum_cons]
    omega

theorem foldl_statStep_total_companion_score (rs : List GameRecordM) :
    ∀ acc, (List.foldl statStep acc rs).total_companion_score =
      acc.total_companion_score + (rs.map (fun r => r.companion_score)).sum := by
  induction rs with
  | nil => intro acc; simp
  | cons r rest ih =>
    intro acc
    rw [List.foldl_cons, ih, statStep_total_companion_score]
    simp only [List.map_cons, List.sum_cons]
    omega

theorem foldl_statStep_wins (rs : List GameRecordM) :
    ∀ acc, (List.foldl statStep acc rs).wins =
      acc.wins + rs.countP (fun r => decide (r.winner = some "user")) := by
  induction rs with
  | nil => intro acc; simp
  | cons r rest ih =>
    intro acc
    rw [List.foldl_cons, ih, statStep_wins, List.countP_cons]
    simp only [decide_eq_true_eq]
    split_ifs <;> omega

theorem foldl_statStep_losses (rs : List GameRecordM) :
    ∀ acc, (List.foldl statStep acc rs).losses =
      acc.losses + rs.countP (fun r => decide (r.winner = some "companion")) := by
  induction rs with
  | nil => intro acc; simp
  | cons r rest ih =>
    intro acc
    rw [List.foldl_cons, ih, statStep_losses, List.countP_cons]
    simp only [decide_eq_true_eq]
    split_ifs with h1 h2 <;> try omega
    · exfalso
      rw [h1] at h2
      exact absurd h2 (by decide)

theorem foldl_statStep_ties (rs : List GameRecordM) :
    ∀ acc, (List.foldl statStep acc rs).ties =
      acc.ties + rs.countP
        (fun r => decide (¬ r.winner = some "user" ∧ ¬ r.winner = some "companion")) := by
  induction rs with
  | nil => intro acc; simp
  | cons r rest ih =>
    intro acc
    rw [List.foldl_cons, ih, statStep_ties, List.countP_cons]
    simp only [decide_eq_true_eq]
    split_ifs <;> (simp_all; try omega)

theorem lookupGameType_bumpGameType (m : List (String × GameTypeStats))
    (gid k : String) (w : Bool) :
    lookupGameType (bumpGameType m gid w) k =
      if k = gid then some (bumpLookup (lookupGameType m gid) w)
      else lookupGameType m k := by
  induction m with
  | nil =>
    by_cases h : k = gid
    · simp [bumpGameType, lookupGameType, bumpLookup, h]
    · have h4 : ¬ gid = k := fun hc => h hc.symm
      simp [bumpGameType, lookupGameType, bumpLookup, h, h4]
  | cons a rest ih =>
    obtain ⟨ka, va⟩ := a
    by_cases h1 : ka = gid
    · subst h1
      by_cases h2 : k = ka
      · subst h2
        simp [bumpGameType, lookupGameType, bumpLookup]
      · have h3 : ¬ ka = k := fun hc => h2 hc.symm
        simp [bumpGameType, lookupGameType, h2, h3]
    · by_cases h2 : ka = k
      · subst h2
        simp [bumpGameType, lookupGameType, h1]
      · simp [bumpGameType, lookupGameType, h1, h2, ih]

theorem foldl_statStep_games_by_type (rs : List GameRecordM) :
    ∀ acc gid, lookupGameType (List.foldl statStep acc rs).games_by_type gid =
      addCounts (lookupGameType acc.games_by_type gid)
        (rs.countP (fun r => decide (r.game_id = gid)))
        (rs.countP (fun r => decide (r.game_id = gid ∧ r.winner = some "user"))) := by
  induction rs with
  | nil =>
    intro acc gid
    cases h : lookupGameType acc.games_by_type gid <;> simp [addCounts, h]
  | cons r rest ih =>
    intro acc gid
    rw [List.foldl_cons, ih, statStep_games_by_type, lookupGameType_bumpGameType,
      List.countP_cons, List.countP_cons]
    simp only [decide_eq_true_eq]
    by_cases hg : r.game_id = gid
    · subst hg
      rw [if_pos rfl]
      by_cases hw : r.winner = some "user"
      · cases h : lookupGameType acc.games_by_type r.game_id <;>
          simp [addCounts, bumpLookup, h, hw] <;> omega
      · cases h : lookupGameType acc.games_by_type r.game_id <;>
          simp [addCounts, bumpLookup, h, hw] <;> omega
    · rw [if_neg (fun hc => hg hc.symm)]
      simp [hg]

theorem stats_total_games_eq (records : List GameRecordM) :
    (get_statistics records).total_games = records.length := by
  rw [get_statistics, foldl_statStep_total_games]

theorem stats_total_user_score_eq (records : List GameRecordM) :
    (get_statistics records).total_user_score = (records.map (fun r => r.user_score)).sum := by
  rw [get_statistics, foldl_statStep_total_user_score]
  exact zero_add _

theorem stats_total_companion_score_eq (records : List GameRecordM) :
    (get_statistics records).total_companion_score =
      (records.map (fun r => r.companion_score)).sum := by
  rw [get_statistics, foldl_statStep_total_companion_score]
  exact zero_add _

theorem stats_wins_eq (records : List GameRecordM) :
    (get_statistics records).wins =
      records.countP (fun r => decide (r.winner = some "user")) := by
  rw [get_statistics, foldl_statStep_wins]
  exact Nat.zero_add _

theorem stats_losses_eq (records : List GameRecordM) :
    (get_statistics records).losses =
      records.countP (fun r => decide (r.winner = some "companion")) := by
  rw [get_statistics, foldl_statStep_losses]
  exact Nat.zero_add _

theorem stats_ties_eq (records : List GameRecordM) :
    (get_statistics records).ties =
      records.countP
        (fun r => decide (¬ r.winner = some "user" ∧ ¬ r.winner = some "companion")) := by
  rw [get_statistics, foldl_statStep_ties]
  exact Nat.zero_add _

theorem stats_games_by_type_eq (records : List GameRecordM) (gid : String) :
    lookupGameType (get_statistics records).games_by_type gid =
      if records.countP (fun r => decide (r.game_id = gid)) = 0 then none
      else some { played := records.countP (fun r => decide (r.game_id = gid)),
                  wins := records.countP
                    (fun r => decide (r.game_id = gid ∧ r.winner = some "user")) } := by
  rw [get_statistics, foldl_statStep_games_by_type]
  have h0 : lookupGameType
      ({ emptyStatistics with total_games := records.length } : Statistics).games_by_type gid
      = none := rfl
  rw [h0]
  simp [addCounts]

/-- Each record falls in exactly one of the three winner buckets counted by
the statistics loop. -/
theorem countP_winner_partition (rs : List GameRecordM) :
    rs.countP (fun r => decide (r.winner = some "user"))
    + rs.countP (fun r => decide (r.winner = some "companion"))
    + rs.countP
        (fun r => decide (¬ r.winner = some "user" ∧ ¬ r.winner = some "companion"))
    = rs.length := by
  induction rs with
  | nil => rfl
  | cons r rest ih =>
    simp only [List.countP_cons, decide_eq_true_eq, List.length_cons]
    by_cases h1 : r.winner = some "user"
    · have h2 : ¬ r.winner = some "companion" := by
        rw [h1]
        decide
      have h3 : ¬ (¬ r.winner = some "user" ∧ ¬ r.winner = some "companion") :=
        fun hc => hc.1 h1
      rw [if_pos h1, if_neg h2, if_neg h3]
      omega
    · by_cases h2 : r.winner = some "companion"
      · have h3 : ¬ (¬ r.winner = some "user" ∧ ¬ r.winner = some "companion") :=
          fun hc => hc.2 h2
        rw [if_neg h1, if_pos h2, if_neg h3]
        omega
      · rw [if_neg h1, if_neg h2, if_pos (And.intro h1 h2)]
        omega

/-- **C8**: `get_statistics` returns `total_games` = number of records, the
score totals as sums, wins/losses/ties counted from each record's `winner`
(user→wins, companion→losses, tie→ties when every winner is one of the three
values), `games_by_type` mapping each played `game_id` to its played count and
user-win count (and no entry for an unplayed `game_id`), and the all-zero /
empty structure for zero records.  The operation is a pure function of the
record list (the code path only reads the records table). -/
theorem get_statistics_spec (records : List GameRecordM) :
    (get_statistics records).total_games = records.length
    ∧ (get_statistics records).total_user_score = (records.map (fun r => r.user_score)).sum
    ∧ (get_statistics records).total_companion_score =
        (records.map (fun r => r.companion_score)).sum
    ∧ (get_statistics records).wins =
        records.countP (fun r => decide (r.winner = some "user"))
    ∧ (get_statistics records).losses =
        records.countP (fun r => decide (r.winner = some "companion"))
    ∧ ((∀ r ∈ records, r.winner = some "user" ∨ r.winner = some "companion"
          ∨ r.winner = some "tie") →
        (get_statistics records).ties =
          records.countP (fun r => decide (r.winner = some "tie")))
    ∧ (∀ gid, lookupGameType (get_statistics records).games_by_type gid =
        if records.countP (fun r => decide (r.game_id = gid)) = 0 then none
        else some { played := records.countP (fun r => decide (r.game_id = gid)),
                    wins := records.countP
                      (fun r => decide (r.game_id = gid ∧ r.winner = some "user")) })
    ∧ get_statistics [] = emptyStatistics := by
  refine ⟨stats_total_games_eq records, stats_total_user_score_eq records,
    stats_total_companion_score_eq records, stats_wins_eq records,
    stats_losses_eq records, ?_, stats_games_by_type_eq records, rfl⟩
  intro h3
  rw [stats_ties_eq]
  refine List.countP_congr (fun r hr => ?_)
  simp only [decide_eq_true_eq]
  rcases h3 r hr with h | h | h <;> rw [h] <;> decide

/-- Witness for C8: the spec's example — three records with winners
user, user, tie give wins 2, losses 0, ties 1, total 3. -/
theorem get_statistics_spec_witness :
    (get_statistics recsUserUserTie).ties =
      recsUserUserTie.countP (fun r => decide (r.winner = some "tie"))
    ∧ (get_statistics recsUserUserTie).wins = 2
    ∧ (get_statistics recsUserUserTie).losses = 0
    ∧ (get_statistics recsUserUserTie).ties = 1
    ∧ (get_statistics recsUserUserTie).total_games = 3 := by
  obtain ⟨h1, _, _, h4, h5, h6, _, _⟩ := get_statistics_spec recsUserUserTie
  exact ⟨h6 (by decide), h4.trans (by decide), h5.trans (by decide),
    (h6 (by decide)).trans (by decide), h1.trans (by decide)⟩

/-- **C10**: in the statistics of any record list, wins + losses + ties =
total_games — every record lands in exactly one bucket — and the tie bucket
counts precisely the records whose winner is neither `"user"` nor
`"companion"`, which includes a null winner (the stored record type permits
`winner = none`). -/
theorem stats_buckets_partition (records : List GameRecordM) :
    (get_statistics records).wins + (get_statistics records).losses
      + (get_statistics records).ties = (get_statistics records).total_games
    ∧ (get_statistics records).ties =
        records.countP
          (fun r => decide (¬ r.winner = some "user" ∧ ¬ r.winner = some "companion")) := by
  constructor
  · rw [stats_wins_eq, stats_losses_eq, stats_ties_eq, stats_total_games_eq]
    exact countP_winner_partition records
  · exact stats_ties_eq records

end AiCompanion
